import Mathlib

/-!
# ChatTMT — verification of the session-memory lifecycle and turn pipeline

Shallow embedding of the core of the ChatTMT repository
(`app/core/session.py`, `app/core/pipeline.py`, `app/core/schemas.py`,
`app/modules/{summarizer,rewriter,clarifier,augmenter,answer}.py`), together
with theorems settling the frozen claims about it.

Modelling conventions:
* The oracle (LLM client) is external; each oracle round trip is modelled by
  the already-parsed outcome of `json.loads` on its response: `none` stands
  for a `JSONDecodeError` (unparsable output), `some d` for a parsed JSON
  object of the documented shape, with every field optional (`dict.get`).
  A transport failure (the `chat` call raising) is modelled by `Except.error`.
* The token estimator (`tiktoken`) is external; it is carried as an abstract
  parameter `countTokens : String → Nat`.
* Python `datetime` instants are modelled as abstract `Nat` values; the
  pipeline threads an explicit `now`.
* Python's `lst[-n:]` slice is `pyTakeLast`, Python's `str.strip()` is
  `pyStrip` (ASCII whitespace).
-/

set_option linter.unusedVariables false

namespace ChatTMT

/-- Python's `lst[-n:]` slice: the last `n` elements, and the whole list when
`n = 0` (since `lst[-0:] = lst[0:]`). -/
def pyTakeLast (xs : List α) (n : Nat) : List α :=
  if n = 0 then xs else xs.drop (xs.length - n)

/-- Python's `str.strip()`: drop whitespace from both ends. -/
def pyStrip (s : String) : String :=
  ⟨((s.data.dropWhile Char.isWhitespace).reverse.dropWhile Char.isWhitespace).reverse⟩

/-! ## Data model (`app/core/schemas.py`) -/

/-- Conversation role (`Literal["user", "assistant"]`). -/
inductive Role where
  | user
  | assistant
deriving DecidableEq, Repr

/-- `str.upper()` of a role name, as used when formatting context blocks. -/
def Role.upper : Role → String
  | .user => "USER"
  | .assistant => "ASSISTANT"

/-- Single conversation message (`Message`). -/
structure Message where
  role : Role
  content : String
  timestamp : Option Nat := none
deriving DecidableEq, Repr

/-- User preferences and constraints (`UserProfile`). -/
structure UserProfile where
  prefs : List String := []
  constraints : List String := []
  background : Option String := none
deriving DecidableEq, Repr

/-- Structured rolling summary (`SessionSummary`). -/
structure SessionSummary where
  user_profile : UserProfile := {}
  current_goal : Option String := none
  topics : List String := []
  key_facts : List String := []
  decisions : List String := []
  open_questions : List String := []
  todos : List String := []
deriving DecidableEq, Repr

/-- Which summary fields to pull from memory (`ContextUsage`).
The seven flags are the ones read by `augment_context` and produced by
`_dict_to_rewrite_result`; the copy of `schemas.py` under `src/` is truncated
and declares only five of them, the callers and the spec (§3) fix all seven. -/
structure ContextUsage where
  use_user_profile : Bool := false
  use_current_goal : Bool := false
  use_topics : Bool := false
  use_key_facts : Bool := false
  use_decisions : Bool := false
  use_open_questions : Bool := false
  use_todos : Bool := false
deriving DecidableEq, Repr

/-- Complete session state (`SessionState`).
Modelled from the spec: the `schemas.py` under `src/` is truncated and omits
`session_id`, `summarized_up_to_turn`, `created_at` and `last_updated`, which
`session.py` reads and writes and §3 of the spec lists; they are included here
with the spec's types (datetimes as abstract `Nat` instants). -/
structure SessionState where
  session_id : String
  raw_messages : List Message := []
  summary : Option SessionSummary := none
  summarized_up_to_turn : Option Nat := none
  total_turns : Nat := 0
  clarification_count : Nat := 0
  created_at : Nat := 0
  last_updated : Nat := 0
deriving DecidableEq, Repr

/-- Output of the rewrite step (`RewriteResult`). -/
structure RewriteResult where
  original_query : String
  is_ambiguous : Bool
  rewritten_query : Option String := none
  referenced_messages : List Message := []
  context_usage : ContextUsage := {}
deriving DecidableEq, Repr

/-- Output of the context assembler (`AugmentedContext`). -/
structure AugmentedContext where
  recent_messages : List Message := []
  memory_fields_used : List String := []
  memory_context : String := ""
  final_augmented_context : String
deriving DecidableEq, Repr

/-- Output of the clarify decision (`ClarificationResult`). -/
structure ClarificationResult where
  needs_clarification : Bool
  clarifying_questions : List String := []
deriving DecidableEq, Repr

/-- Per-turn pipeline output (`PipelineResult`, `app/core/pipeline.py`). -/
structure PipelineResult where
  rewrite_result : RewriteResult
  augmented_context : AugmentedContext
  clarification_result : Option ClarificationResult := none
  needs_clarification : Bool := false
  response : String := ""
  was_summarized : Bool := false
  was_compressed : Bool := false
deriving DecidableEq, Repr

/-- Configuration surface (`app/utils/config.py`), defaults as in the source. -/
structure Config where
  TOKEN_THRESHOLD_RAW : Nat := 10000
  SUMMARY_TOKEN_THRESHOLD : Nat := 2000
  KEEP_RECENT_N : Nat := 16
  LIGHT_CONTEXT_SIZE : Nat := 8
  RECENT_CONTEXT_SIZE : Nat := 10
  MAX_CLARIFICATION_ROUNDS : Nat := 2
deriving DecidableEq, Repr

/-! ## Parsed oracle responses

Each structure mirrors the JSON object a module expects after `json.loads`;
every field is optional because the Python code reads it with `dict.get`. -/

/-- Parsed `user_profile` sub-object of a summary oracle response; `none` at
the use site also covers a present-but-falsy (`null`/empty) sub-object. -/
structure ProfileDict where
  prefs : Option (List String) := none
  constraints : Option (List String) := none
  background : Option String := none
deriving DecidableEq, Repr

/-- Parsed summary/compression oracle response. -/
structure SummaryDict where
  user_profile : Option ProfileDict := none
  current_goal : Option String := none
  topics : Option (List String) := none
  key_facts : Option (List String) := none
  decisions : Option (List String) := none
  open_questions : Option (List String) := none
  todos : Option (List String) := none
deriving DecidableEq, Repr

/-- Parsed `context_usage` sub-object of a rewrite oracle response. -/
structure ContextUsageDict where
  use_user_profile : Option Bool := none
  use_current_goal : Option Bool := none
  use_topics : Option Bool := none
  use_key_facts : Option Bool := none
  use_decisions : Option Bool := none
  use_open_questions : Option Bool := none
  use_todos : Option Bool := none
deriving DecidableEq, Repr

/-- Parsed rewrite oracle response; `rewritten_query = none` covers both an
absent key and an explicit JSON `null` (`data.get("rewritten_query")`). -/
structure RewriteDict where
  is_ambiguous : Option Bool := none
  rewritten_query : Option String := none
  context_usage : Option ContextUsageDict := none
deriving DecidableEq, Repr

/-- Parsed clarify-decision oracle response. -/
structure ClarifyDict where
  needs_clarification : Option Bool := none
  clarifying_questions : Option (List String) := none
deriving DecidableEq, Repr

/-! ## Summarizer (`app/modules/summarizer.py`) -/

/-- `_dict_to_session_summary`: convert a parsed oracle dict to a
`SessionSummary`; absent fields fall back to empty defaults. -/
def _dict_to_session_summary (data : SummaryDict) : SessionSummary :=
  let user_profile : UserProfile :=
    match data.user_profile with
    | some profile_data =>
        { prefs := profile_data.prefs.getD []
          constraints := profile_data.constraints.getD []
          background := profile_data.background }
    | none => {}
  { user_profile := user_profile
    current_goal := data.current_goal
    topics := data.topics.getD []
    key_facts := data.key_facts.getD []
    decisions := data.decisions.getD []
    open_questions := data.open_questions.getD []
    todos := data.todos.getD [] }

/-- `summarize_messages`: on a `JSONDecodeError` (`resp = none`) the code
falls back to the empty dict `\x7b\x7d`, hence to the default summary.
`messages` and `existing_summary` only shape the oracle prompt. -/
def summarize_messages (messages : List Message) (resp : Option SummaryDict)
    (existing_summary : Option SessionSummary) : SessionSummary :=
  _dict_to_session_summary (resp.getD {})

/-- `compress_summary`: on a `JSONDecodeError` the old summary is returned
unchanged; `new_messages` only shapes the oracle prompt. -/
def compress_summary (old_summary : SessionSummary) (new_messages : List Message)
    (resp : Option SummaryDict) : SessionSummary :=
  match resp with
  | none => old_summary
  | some d => _dict_to_session_summary d

/-! ## Serialized summary text fed to the token estimator

`check_and_summarize` measures the summary via
`count_tokens(summary.model_dump_json())`; the compact pydantic JSON dump of a
`SessionSummary` is reproduced here so that the measurement is a concrete
function of the state. -/

/-- JSON string escaping (quote, backslash, newline; enough for the dump). -/
def jsonEscape (s : String) : String :=
  String.join (s.data.map fun c =>
    if c = '"' then "\\\"" else if c = '\\' then "\\\\"
    else if c = '\n' then "\\n" else String.singleton c)

/-- Render a JSON string literal. -/
def jsonOfString (s : String) : String := "\"" ++ jsonEscape s ++ "\""

/-- Render a JSON array of strings. -/
def jsonOfStrList (xs : List String) : String :=
  "[" ++ String.intercalate "," (xs.map jsonOfString) ++ "]"

/-- Render an optional string as a JSON string or `null`. -/
def jsonOfOptStr : Option String → String
  | none => "null"
  | some s => jsonOfString s

/-- `SessionSummary.model_dump_json()`: compact JSON in declaration order. -/
def summaryDumpJson (s : SessionSummary) : String :=
  "\x7b\"user_profile\":\x7b\"prefs\":" ++ jsonOfStrList s.user_profile.prefs ++
  ",\"constraints\":" ++ jsonOfStrList s.user_profile.constraints ++
  ",\"background\":" ++ jsonOfOptStr s.user_profile.background ++
  "\x7d,\"current_goal\":" ++ jsonOfOptStr s.current_goal ++
  ",\"topics\":" ++ jsonOfStrList s.topics ++
  ",\"key_facts\":" ++ jsonOfStrList s.key_facts ++
  ",\"decisions\":" ++ jsonOfStrList s.decisions ++
  ",\"open_questions\":" ++ jsonOfStrList s.open_questions ++
  ",\"todos\":" ++ jsonOfStrList s.todos ++ "\x7d"

/-! ## Session store (`app/core/session.py`, `SessionManager`) -/

/-- `add_turn`: append the user then the assistant message (same timestamp),
increment `total_turns`, refresh `last_updated`. -/
def add_turn (st : SessionState) (user_message assistant_message : String)
    (now : Nat) : SessionState :=
  { st with
      raw_messages := st.raw_messages ++
        [{ role := .user, content := user_message, timestamp := some now },
         { role := .assistant, content := assistant_message, timestamp := some now }]
      total_turns := st.total_turns + 1
      last_updated := now }

/-- `increment_clarification`: bump the counter and return its new value. -/
def increment_clarification (st : SessionState) : SessionState × Nat :=
  ({ st with clarification_count := st.clarification_count + 1 },
   st.clarification_count + 1)

/-- `reset_clarification`: reset the counter to 0. -/
def reset_clarification (st : SessionState) : SessionState :=
  { st with clarification_count := 0 }

/-- `get_recent_messages` / `get_light_context`: last-`n` windows. -/
def get_recent_messages (cfg : Config) (st : SessionState) : List Message :=
  pyTakeLast st.raw_messages cfg.RECENT_CONTEXT_SIZE

/-- `get_light_context`: the last `LIGHT_CONTEXT_SIZE` messages. -/
def get_light_context (cfg : Config) (st : SessionState) : List Message :=
  pyTakeLast st.raw_messages cfg.LIGHT_CONTEXT_SIZE

/-- `_perform_summarization`: summarize `raw_messages` (merging the existing
summary via the prompt), keep the last `KEEP_RECENT_N` messages, record the
turn watermark. `summResp` is the parsed summarizer oracle response. -/
def _perform_summarization (cfg : Config) (summResp : Option SummaryDict)
    (now : Nat) (st : SessionState) : SessionState :=
  let new_summary := summarize_messages st.raw_messages summResp st.summary
  { st with
      raw_messages := pyTakeLast st.raw_messages cfg.KEEP_RECENT_N
      summary := some new_summary
      summarized_up_to_turn := some st.total_turns
      last_updated := now }

/-- `_perform_compression`: replace the summary with its compressed form;
no-op when there is no summary. `compResp` is the parsed compressor oracle
response. -/
def _perform_compression (compResp : Option SummaryDict) (now : Nat)
    (st : SessionState) : SessionState :=
  match st.summary with
  | none => st
  | some old =>
      { st with
          summary := some (compress_summary old [] compResp)
          last_updated := now }

/-- The raw-message text measured by the compaction check:
`" ".join(m.content for m in raw_messages)`. -/
def rawText (st : SessionState) : String :=
  String.intercalate " " (st.raw_messages.map Message.content)

/-- `check_and_summarize`: the compaction check. Without an oracle bound it
returns `false` untouched; else if the raw-message token estimate exceeds
`TOKEN_THRESHOLD_RAW` it summarizes and returns `true`; else if a summary
exists and its dump's token estimate exceeds `SUMMARY_TOKEN_THRESHOLD` it
compresses and returns `true`; otherwise `false`. -/
def check_and_summarize (cfg : Config) (countTokens : String → Nat)
    (hasOracle : Bool) (summResp compResp : Option SummaryDict) (now : Nat)
    (st : SessionState) : SessionState × Bool :=
  if !hasOracle then (st, false)
  else
    let raw_tokens := countTokens (rawText st)
    let summary_tokens :=
      match st.summary with
      | some s => countTokens (summaryDumpJson s)
      | none => 0
    if raw_tokens > cfg.TOKEN_THRESHOLD_RAW then
      (_perform_summarization cfg summResp now st, true)
    else if st.summary.isSome && summary_tokens > cfg.SUMMARY_TOKEN_THRESHOLD then
      (_perform_compression compResp now st, true)
    else
      (st, false)

/-! ## Context assembler (`app/modules/augmenter.py`, `augment_context`) -/

/-- Python truthiness of an optional string (`None` and `""` are falsy). -/
def optStrTruthy : Option String → Bool
  | none => false
  | some s => !(s = "")

/-- The `USER PROFILE` block's inner lines (`parts` in the source). -/
def profileParts (p : UserProfile) : List String :=
  (if !p.prefs.isEmpty then ["Preferences: " ++ String.intercalate ", " p.prefs] else []) ++
  (if !p.constraints.isEmpty then ["Constraints: " ++ String.intercalate ", " p.constraints] else []) ++
  (match p.background with
   | some b => if !(b = "") then ["Background: " ++ b] else []
   | none => [])

/-- The `(memory_fields_used, memory_context_parts)` pair built by the block
of `if` statements in `augment_context`, in source order; empty when no
summary is present. -/
def memoryFieldsAndParts (context_usage : ContextUsage) :
    Option SessionSummary → List String × List String
  | none => ([], [])
  | some summary =>
      let fields0 : List String := []
      let parts0 : List String := []
      -- user_profile: the field name is recorded whenever the flag is set
      -- (the profile object itself is never None), the block only when some
      -- sub-field is populated
      let (fields1, parts1) :=
        if context_usage.use_user_profile then
          let parts := profileParts summary.user_profile
          (fields0 ++ ["user_profile"],
           if !parts.isEmpty then
             parts0 ++ ["USER PROFILE:\n" ++ String.intercalate "\n" parts]
           else parts0)
        else (fields0, parts0)
      let (fields2, parts2) :=
        if context_usage.use_current_goal && optStrTruthy summary.current_goal then
          (fields1 ++ ["current_goal"],
           parts1 ++ ["CURRENT GOAL: " ++ summary.current_goal.getD ""])
        else (fields1, parts1)
      let (fields3, parts3) :=
        if context_usage.use_topics && !summary.topics.isEmpty then
          (fields2 ++ ["topics"],
           parts2 ++ ["TOPICS DISCUSSED: " ++ String.intercalate ", " summary.topics])
        else (fields2, parts2)
      let (fields4, parts4) :=
        if context_usage.use_key_facts && !summary.key_facts.isEmpty then
          (fields3 ++ ["key_facts"],
           parts3 ++ ["KEY FACTS:\n" ++
             String.intercalate "\n" (summary.key_facts.map ("- " ++ ·))])
        else (fields3, parts3)
      let (fields5, parts5) :=
        if context_usage.use_decisions && !summary.decisions.isEmpty then
          (fields4 ++ ["decisions"],
           parts4 ++ ["DECISIONS MADE:\n" ++
             String.intercalate "\n" (summary.decisions.map ("- " ++ ·))])
        else (fields4, parts4)
      let (fields6, parts6) :=
        if context_usage.use_open_questions && !summary.open_questions.isEmpty then
          (fields5 ++ ["open_questions"],
           parts5 ++ ["OPEN QUESTIONS:\n" ++
             String.intercalate "\n" (summary.open_questions.map ("- " ++ ·))])
        else (fields5, parts5)
      if context_usage.use_todos && !summary.todos.isEmpty then
        (fields6 ++ ["todos"],
         parts6 ++ ["TODOS:\n" ++
           String.intercalate "\n" (summary.todos.map ("- " ++ ·))])
      else (fields6, parts6)

/-- The recent-conversation block: `"RECENT CONVERSATION:\n"` plus one
`"ROLE: content\n"` line per message, then `str.strip()`. -/
def recentBlock (recent : List Message) : String :=
  pyStrip ("RECENT CONVERSATION:\n" ++
    String.join (recent.map fun msg => msg.role.upper ++ ": " ++ msg.content ++ "\n"))

/-- `augment_context`: combine the clamped recent window with the selected
memory fields. -/
def augment_context (cfg : Config) (recent_messages : List Message)
    (context_usage : ContextUsage) (summary : Option SessionSummary) :
    AugmentedContext :=
  let recent :=
    if recent_messages.isEmpty then []
    else pyTakeLast recent_messages cfg.RECENT_CONTEXT_SIZE
  let (memory_fields_used, memory_context_parts) :=
    memoryFieldsAndParts context_usage summary
  let memory_context :=
    if !memory_context_parts.isEmpty then
      String.intercalate "\n\n" memory_context_parts
    else ""
  let final_parts :=
    (if !recent.isEmpty then [recentBlock recent] else []) ++
    (if !(memory_context = "") then ["MEMORY CONTEXT:\n" ++ memory_context] else [])
  let final_augmented_context :=
    if !final_parts.isEmpty then String.intercalate "\n\n" final_parts else ""
  { recent_messages := recent
    memory_fields_used := memory_fields_used
    memory_context := memory_context
    final_augmented_context := final_augmented_context }

/-! ## Rewriter (`app/modules/rewriter.py`) -/

/-- `_dict_to_rewrite_result`: convert the parsed rewrite oracle response. -/
def _dict_to_rewrite_result (cfg : Config) (data : RewriteDict)
    (original_query : String) (recent_messages : List Message) : RewriteResult :=
  let context_usage : ContextUsage :=
    match data.context_usage with
    | some cu =>
        { use_user_profile := cu.use_user_profile.getD false
          use_current_goal := cu.use_current_goal.getD false
          use_topics := cu.use_topics.getD false
          use_key_facts := cu.use_key_facts.getD false
          use_decisions := cu.use_decisions.getD false
          use_open_questions := cu.use_open_questions.getD false
          use_todos := cu.use_todos.getD false }
    | none => {}
  let referenced_messages :=
    if data.is_ambiguous.getD false then
      pyTakeLast recent_messages cfg.LIGHT_CONTEXT_SIZE
    else []
  { original_query := original_query
    is_ambiguous := data.is_ambiguous.getD false
    rewritten_query := data.rewritten_query
    referenced_messages := referenced_messages
    context_usage := context_usage }

/-- `rewrite_query`: on a `JSONDecodeError` fall back to a clear-query result;
otherwise convert the dict and null out a truthy rewrite that equals the
original after stripping (`result.rewritten_query.strip() == query.strip()`). -/
def rewrite_query (cfg : Config) (query : String)
    (recent_messages : List Message) (resp : Option RewriteDict) : RewriteResult :=
  match resp with
  | none =>
      { original_query := query
        is_ambiguous := false
        rewritten_query := none
        referenced_messages := []
        context_usage := {} }
  | some data =>
      let result := _dict_to_rewrite_result cfg data query recent_messages
      match result.rewritten_query with
      | some rq =>
          if rq ≠ "" ∧ pyStrip rq = pyStrip query then
            { result with rewritten_query := none }
          else result
      | none => result

/-! ## Clarifier (`app/modules/clarifier.py`) -/

/-- `check_clarification_needed`: on a `JSONDecodeError` fall back to "no
clarification"; otherwise read the flag and questions list, truncating the
list to 3 entries when longer. -/
def check_clarification_needed (resp : Option ClarifyDict) : ClarificationResult :=
  match resp with
  | none => { needs_clarification := false, clarifying_questions := [] }
  | some data =>
      let needs_clarification := data.needs_clarification.getD false
      let questions := data.clarifying_questions.getD []
      let questions := if questions.length > 3 then questions.take 3 else questions
      { needs_clarification := needs_clarification
        clarifying_questions := questions }

/-! ## Answer generation (`app/modules/answer.py`) -/

/-- `generate_answer`: the oracle's text is stripped; a transport failure
(`chat` raising) propagates. -/
def generate_answer (resp : Except Unit String) : Except Unit String :=
  resp.map pyStrip

/-! ## Pipeline (`app/core/pipeline.py`, `QueryPipeline`) -/

/-- One turn's worth of oracle round-trip outcomes, in call order. `none`
inside an `Option` is unparsable output; `Except.error` is a transport
failure of the answer call. -/
structure OracleTurn where
  summResp : Option SummaryDict := none
  compResp : Option SummaryDict := none
  rewriteResp : Option RewriteDict := none
  clarifyResp : Option ClarifyDict := none
  answerResp : Except Unit String := .ok ""
  forcedAnswerResp : Except Unit String := .ok ""
deriving Repr

/-- `_format_clarification_questions`: fallback prompt for an empty list, the
single question verbatim, or a stripped numbered list. -/
def _format_clarification_questions (questions : List String) : String :=
  match questions with
  | [] => "Could you please provide more details about your request?"
  | [q] => q
  | qs =>
      pyStrip ("I need a bit more information:\n" ++
        String.join (qs.enum.map fun iq =>
          toString (iq.1 + 1) ++ ". " ++ iq.2 ++ "\n"))

/-- The fixed apologetic fallback of `_generate_forced_answer`. -/
def forcedAnswerFallback : String :=
  "I understand you need help, but I'm having trouble understanding " ++
  "the specific request. Could you try rephrasing your question with " ++
  "more details about what you're trying to accomplish?"

/-- `_generate_forced_answer`: best-effort answer, substituting the fixed
apology when generation raises. -/
def _generate_forced_answer (resp : Except Unit String) : String :=
  match generate_answer resp with
  | .ok answer => answer
  | .error _ => forcedAnswerFallback

/-- Python's `a or b` on an optional string: `rewritten_query or query`. -/
def pyOrElse (a : Option String) (b : String) : String :=
  match a with
  | some s => if s = "" then b else s
  | none => b

/-- `QueryPipeline.process`: compaction check, rewrite, augment, then the
clarify-or-answer decision. Returns the mutated session state and `some`
result, or `none` when the (non-forced) answer generation raised — in which
case the state mutations made so far persist. In the pipeline the session
always has an oracle bound (the constructor installs one). -/
def process (cfg : Config) (countTokens : String → Nat) (o : OracleTurn)
    (now : Nat) (query : String) (st : SessionState) :
    SessionState × Option PipelineResult :=
  -- Step 0: compaction check
  let checked := check_and_summarize cfg countTokens true o.summResp o.compResp now st
  let st1 := checked.1
  let was_summarized := checked.2
  -- Step 1: rewrite with the light context
  let light_context := get_light_context cfg st1
  let rewrite_result := rewrite_query cfg query light_context o.rewriteResp
  -- Step 2: augment
  let augmented_context :=
    augment_context cfg (get_recent_messages cfg st1)
      rewrite_result.context_usage st1.summary
  -- Step 3: decide
  let effective_query := pyOrElse rewrite_result.rewritten_query query
  let clarification_result := check_clarification_needed o.clarifyResp
  if clarification_result.needs_clarification then
    let incremented := increment_clarification st1
    let st2 := incremented.1
    let current_count := incremented.2
    if current_count ≥ cfg.MAX_CLARIFICATION_ROUNDS then
      let st3 := reset_clarification st2
      let answer := _generate_forced_answer o.forcedAnswerResp
      (st3, some
        { rewrite_result := rewrite_result
          augmented_context := augmented_context
          clarification_result := some clarification_result
          needs_clarification := false
          response := answer
          was_summarized := was_summarized })
    else
      (st2, some
        { rewrite_result := rewrite_result
          augmented_context := augmented_context
          clarification_result := some clarification_result
          needs_clarification := true
          response := _format_clarification_questions
            clarification_result.clarifying_questions
          was_summarized := was_summarized })
  else
    let st2 := reset_clarification st1
    match generate_answer o.answerResp with
    | .ok answer =>
        (st2, some
          { rewrite_result := rewrite_result
            augmented_context := augmented_context
            clarification_result := some clarification_result
            needs_clarification := false
            response := answer
            was_summarized := was_summarized })
    | .error _ => (st2, none)

/-- `QueryPipeline.process_and_record`: run `process` and, only when the
result is not a clarification request, record the turn with `add_turn`. -/
def process_and_record (cfg : Config) (countTokens : String → Nat)
    (o : OracleTurn) (now : Nat) (query : String) (st : SessionState) :
    SessionState × Option PipelineResult :=
  match process cfg countTokens o now query st with
  | (st1, none) => (st1, none)
  | (st1, some result) =>
      if !result.needs_clarification then
        (add_turn st1 query result.response now, some result)
      else
        (st1, some result)

/-! ## Persisted session record (`SessionManager.save` / `load`)

Modelled from the spec: `save` writes `state.model_dump_json()` and `load`
parses the file and runs `SessionState.model_validate`; the pydantic
serialization machinery is external to `src/`, so the self-describing
structured document of §6 is modelled as a JSON value tree, the serializer
emitting fields in declaration order with `null` for absent optionals and
`[]` (never `null`) for empty lists, and the deserializer reading back the
document `save` produces. Datetimes are abstract `Nat` instants. -/

/-- JSON value tree (numbers restricted to the naturals the state stores). -/
inductive JVal where
  | jnull
  | jbool (b : Bool)
  | jstr (s : String)
  | jnum (n : Nat)
  | jarr (xs : List JVal)
  | jobj (fields : List (String × JVal))
deriving Repr

/-- Serialize a role. -/
def roleToJson : Role → JVal
  | .user => .jstr "user"
  | .assistant => .jstr "assistant"

/-- Deserialize a role. -/
def roleFromJson : JVal → Option Role
  | .jstr "user" => some .user
  | .jstr "assistant" => some .assistant
  | _ => none

/-- Serialize an optional instant. -/
def optNatToJson : Option Nat → JVal
  | none => .jnull
  | some n => .jnum n

/-- Deserialize an optional instant. -/
def optNatFromJson : JVal → Option (Option Nat)
  | .jnull => some none
  | .jnum n => some (some n)
  | _ => none

/-- Serialize an optional string. -/
def optStrToJson : Option String → JVal
  | none => .jnull
  | some s => .jstr s

/-- Deserialize an optional string. -/
def optStrFromJson : JVal → Option (Option String)
  | .jnull => some none
  | .jstr s => some (some s)
  | _ => none

/-- Serialize a list of strings (an empty list stays `[]`, never `null`). -/
def strListToJson (xs : List String) : JVal :=
  .jarr (xs.map .jstr)

/-- Deserialize a list of strings. -/
def strListFromJson : JVal → Option (List String)
  | .jarr xs => go xs
  | _ => none
where
  /-- Each element must be a string. -/
  go : List JVal → Option (List String)
  | [] => some []
  | .jstr s :: rest => (go rest).map (s :: ·)
  | _ => none

/-- Serialize one message. -/
def messageToJson (m : Message) : JVal :=
  .jobj [("role", roleToJson m.role),
         ("content", .jstr m.content),
         ("timestamp", optNatToJson m.timestamp)]

/-- Deserialize one message (the document `save` produces). -/
def messageFromJson : JVal → Option Message
  | .jobj [("role", r), ("content", .jstr c), ("timestamp", t)] =>
      match roleFromJson r, optNatFromJson t with
      | some role, some ts => some { role := role, content := c, timestamp := ts }
      | _, _ => none
  | _ => none

/-- Deserialize a message list. -/
def messagesFromJson : List JVal → Option (List Message)
  | [] => some []
  | j :: rest =>
      match messageFromJson j, messagesFromJson rest with
      | some m, some ms => some (m :: ms)
      | _, _ => none

/-- Serialize a user profile. -/
def profileToJson (p : UserProfile) : JVal :=
  .jobj [("prefs", strListToJson p.prefs),
         ("constraints", strListToJson p.constraints),
         ("background", optStrToJson p.background)]

/-- Deserialize a user profile. -/
def profileFromJson : JVal → Option UserProfile
  | .jobj [("prefs", pr), ("constraints", co), ("background", bg)] =>
      match strListFromJson pr, strListFromJson co, optStrFromJson bg with
      | some prefs, some constraints, some background =>
          some { prefs := prefs, constraints := constraints, background := background }
      | _, _, _ => none
  | _ => none

/-- Serialize a session summary. -/
def summaryToJson (s : SessionSummary) : JVal :=
  .jobj [("user_profile", profileToJson s.user_profile),
         ("current_goal", optStrToJson s.current_goal),
         ("topics", strListToJson s.topics),
         ("key_facts", strListToJson s.key_facts),
         ("decisions", strListToJson s.decisions),
         ("open_questions", strListToJson s.open_questions),
         ("todos", strListToJson s.todos)]

/-- Deserialize a session summary. -/
def summaryFromJson : JVal → Option SessionSummary
  | .jobj [("user_profile", up), ("current_goal", cg), ("topics", tp),
           ("key_facts", kf), ("decisions", dc), ("open_questions", oq),
           ("todos", td)] =>
      match profileFromJson up, optStrFromJson cg, strListFromJson tp,
            strListFromJson kf, strListFromJson dc, strListFromJson oq,
            strListFromJson td with
      | some user_profile, some current_goal, some topics, some key_facts,
        some decisions, some open_questions, some todos =>
          some { user_profile := user_profile, current_goal := current_goal,
                 topics := topics, key_facts := key_facts, decisions := decisions,
                 open_questions := open_questions, todos := todos }
      | _, _, _, _, _, _, _ => none
  | _ => none

/-- Serialize the optional summary. -/
def optSummaryToJson : Option SessionSummary → JVal
  | none => .jnull
  | some s => summaryToJson s

/-- Deserialize the optional summary. -/
def optSummaryFromJson : JVal → Option (Option SessionSummary)
  | .jnull => some none
  | j => (summaryFromJson j).map some

/-- `save`: the full `SessionState` as one self-describing record, field
names as in §3, in declaration order. -/
def sessionStateToJson (st : SessionState) : JVal :=
  .jobj [("session_id", .jstr st.session_id),
         ("raw_messages", .jarr (st.raw_messages.map messageToJson)),
         ("summary", optSummaryToJson st.summary),
         ("summarized_up_to_turn", optNatToJson st.summarized_up_to_turn),
         ("total_turns", .jnum st.total_turns),
         ("clarification_count", .jnum st.clarification_count),
         ("created_at", .jnum st.created_at),
         ("last_updated", .jnum st.last_updated)]

/-- `load`: read back the record `save` produces. -/
def sessionStateFromJson : JVal → Option SessionState
  | .jobj [("session_id", .jstr sid), ("raw_messages", .jarr msgs),
           ("summary", summ), ("summarized_up_to_turn", sut),
           ("total_turns", .jnum tt), ("clarification_count", .jnum cc),
           ("created_at", .jnum ca), ("last_updated", .jnum lu)] =>
      match messagesFromJson msgs, optSummaryFromJson summ, optNatFromJson sut with
      | some raw_messages, some summary, some summarized_up_to_turn =>
          some { session_id := sid, raw_messages := raw_messages,
                 summary := summary, summarized_up_to_turn := summarized_up_to_turn,
                 total_turns := tt, clarification_count := cc,
                 created_at := ca, last_updated := lu }
      | _, _, _ => none
  | _ => none

/-! ## Spec-side definitions for the Context Assembler claim

These two definitions follow the words of §4.3 ("for each summary field whose
corresponding flag is true *and* whose value is non-empty ... record the field
name in `memory_fields_used` in that same order"), to be compared with
`augment_context` above. -/

/-- Whether a user profile carries any content (some preference, constraint,
or a non-empty background). -/
def profileNonEmpty (p : UserProfile) : Bool :=
  !p.prefs.isEmpty || !p.constraints.isEmpty || optStrTruthy p.background

/-- Modelled from the spec (§4.3): the field names whose flag is true and
whose value is non-empty, in the fixed order profile, goal, topics, facts,
decisions, open questions, todos. -/
def specMemoryFieldsUsed (cu : ContextUsage) : Option SessionSummary → List String
  | none => []
  | some s =>
      (if cu.use_user_profile && profileNonEmpty s.user_profile then ["user_profile"] else []) ++
      (if cu.use_current_goal && optStrTruthy s.current_goal then ["current_goal"] else []) ++
      (if cu.use_topics && !s.topics.isEmpty then ["topics"] else []) ++
      (if cu.use_key_facts && !s.key_facts.isEmpty then ["key_facts"] else []) ++
      (if cu.use_decisions && !s.decisions.isEmpty then ["decisions"] else []) ++
      (if cu.use_open_questions && !s.open_questions.isEmpty then ["open_questions"] else []) ++
      (if cu.use_todos && !s.todos.isEmpty then ["todos"] else [])

/-- The labeled, formatted blocks, one per selected non-empty field, in the
same fixed order (matching the labels of the source). -/
def specMemoryBlocks (cu : ContextUsage) : Option SessionSummary → List String
  | none => []
  | some s =>
      (if cu.use_user_profile && !(profileParts s.user_profile).isEmpty then
        ["USER PROFILE:\n" ++ String.intercalate "\n" (profileParts s.user_profile)] else []) ++
      (if cu.use_current_goal && optStrTruthy s.current_goal then
        ["CURRENT GOAL: " ++ s.current_goal.getD ""] else []) ++
      (if cu.use_topics && !s.topics.isEmpty then
        ["TOPICS DISCUSSED: " ++ String.intercalate ", " s.topics] else []) ++
      (if cu.use_key_facts && !s.key_facts.isEmpty then
        ["KEY FACTS:\n" ++ String.intercalate "\n" (s.key_facts.map ("- " ++ ·))] else []) ++
      (if cu.use_decisions && !s.decisions.isEmpty then
        ["DECISIONS MADE:\n" ++ String.intercalate "\n" (s.decisions.map ("- " ++ ·))] else []) ++
      (if cu.use_open_questions && !s.open_questions.isEmpty then
        ["OPEN QUESTIONS:\n" ++ String.intercalate "\n" (s.open_questions.map ("- " ++ ·))] else []) ++
      (if cu.use_todos && !s.todos.isEmpty then
        ["TODOS:\n" ++ String.intercalate "\n" (s.todos.map ("- " ++ ·))] else [])

/-- The amendment the code forces: the six scalar/list fields are recorded
exactly when flagged and non-empty, but `user_profile` is recorded whenever
its flag is set (the profile object itself is never `None`), even when every
profile sub-field is empty. -/
def amendedMemoryFieldsUsed (cu : ContextUsage) : Option SessionSummary → List String
  | none => []
  | some s =>
      (if cu.use_user_profile then ["user_profile"] else []) ++
      (if cu.use_current_goal && optStrTruthy s.current_goal then ["current_goal"] else []) ++
      (if cu.use_topics && !s.topics.isEmpty then ["topics"] else []) ++
      (if cu.use_key_facts && !s.key_facts.isEmpty then ["key_facts"] else []) ++
      (if cu.use_decisions && !s.decisions.isEmpty then ["decisions"] else []) ++
      (if cu.use_open_questions && !s.open_questions.isEmpty then ["open_questions"] else []) ++
      (if cu.use_todos && !s.todos.isEmpty then ["todos"] else [])

/-! ## Helper lemmas -/

theorem pyTakeLast_suffix (xs : List α) (n : Nat) : pyTakeLast xs n <:+ xs := by
  unfold pyTakeLast
  split
  · exact List.suffix_refl xs
  · exact List.drop_suffix _ xs

theorem pyTakeLast_length_le (xs : List α) {n : Nat} (hn : 0 < n) :
    (pyTakeLast xs n).length ≤ n := by
  unfold pyTakeLast
  rw [if_neg (by omega : ¬ n = 0), List.length_drop]
  omega

/-- The compaction check takes one of three branches: no action, a
summarization, or a compression. -/
theorem check_and_summarize_cases (cfg : Config) (ct : String → Nat)
    (hasOr : Bool) (sr cr : Option SummaryDict) (now : Nat) (st : SessionState) :
    check_and_summarize cfg ct hasOr sr cr now st = (st, false) ∨
    (ct (rawText st) > cfg.TOKEN_THRESHOLD_RAW ∧
      check_and_summarize cfg ct hasOr sr cr now st =
        (_perform_summarization cfg sr now st, true)) ∨
    check_and_summarize cfg ct hasOr sr cr now st =
      (_perform_compression cr now st, true) := by
  unfold check_and_summarize
  split
  · exact Or.inl rfl
  · dsimp only
    split
    · next h => exact Or.inr (Or.inl ⟨h, rfl⟩)
    · split
      · exact Or.inr (Or.inr rfl)
      · exact Or.inl rfl

theorem perform_compression_count (cr : Option SummaryDict) (now : Nat)
    (st : SessionState) :
    (_perform_compression cr now st).clarification_count = st.clarification_count := by
  unfold _perform_compression
  cases st.summary <;> rfl

theorem perform_compression_turns (cr : Option SummaryDict) (now : Nat)
    (st : SessionState) :
    (_perform_compression cr now st).total_turns = st.total_turns := by
  unfold _perform_compression
  cases st.summary <;> rfl

theorem perform_compression_raw (cr : Option SummaryDict) (now : Nat)
    (st : SessionState) :
    (_perform_compression cr now st).raw_messages = st.raw_messages := by
  unfold _perform_compression
  cases st.summary <;> rfl

theorem check_and_summarize_count (cfg : Config) (ct : String → Nat)
    (hasOr : Bool) (sr cr : Option SummaryDict) (now : Nat) (st : SessionState) :
    (check_and_summarize cfg ct hasOr sr cr now st).1.clarification_count =
      st.clarification_count := by
  rcases check_and_summarize_cases cfg ct hasOr sr cr now st with h | ⟨_, h⟩ | h <;>
    rw [h] <;> first
      | rfl
      | exact perform_compression_count cr now st

theorem check_and_summarize_turns (cfg : Config) (ct : String → Nat)
    (hasOr : Bool) (sr cr : Option SummaryDict) (now : Nat) (st : SessionState) :
    (check_and_summarize cfg ct hasOr sr cr now st).1.total_turns =
      st.total_turns := by
  rcases check_and_summarize_cases cfg ct hasOr sr cr now st with h | ⟨_, h⟩ | h <;>
    rw [h] <;> first
      | rfl
      | exact perform_compression_turns cr now st

theorem check_and_summarize_raw_suffix (cfg : Config) (ct : String → Nat)
    (hasOr : Bool) (sr cr : Option SummaryDict) (now : Nat) (st : SessionState) :
    (check_and_summarize cfg ct hasOr sr cr now st).1.raw_messages <:+
      st.raw_messages := by
  rcases check_and_summarize_cases cfg ct hasOr sr cr now st with h | ⟨_, h⟩ | h
  · rw [h]
  · rw [h]
    exact pyTakeLast_suffix st.raw_messages cfg.KEEP_RECENT_N
  · rw [h]
    show (_perform_compression cr now st).raw_messages <:+ st.raw_messages
    rw [perform_compression_raw]

/-- After one `process` call the clarification counter is either 0 (a final
answer, forced or not, or a propagated answer failure after the reset) or a
still-below-the-maximum increment of its previous value (a clarifying turn). -/
theorem process_count_cases (cfg : Config) (ct : String → Nat) (o : OracleTurn)
    (now : Nat) (q : String) (st : SessionState) :
    (process cfg ct o now q st).1.clarification_count = 0 ∨
    ((process cfg ct o now q st).1.clarification_count = st.clarification_count + 1 ∧
      st.clarification_count + 1 ≤ cfg.MAX_CLARIFICATION_ROUNDS) := by
  have hc := check_and_summarize_count cfg ct true o.summResp o.compResp now st
  unfold process
  dsimp only
  split
  · split
    · left; rfl
    · next h =>
      right
      simp only [increment_clarification, not_le] at h ⊢
      rw [hc] at h ⊢
      exact ⟨rfl, by omega⟩
  · split
    · left; rfl
    · left; rfl

/-- `process` never changes the message log beyond what the compaction check
did. -/
theorem process_fst_raw (cfg : Config) (ct : String → Nat) (o : OracleTurn)
    (now : Nat) (q : String) (st : SessionState) :
    (process cfg ct o now q st).1.raw_messages =
      (check_and_summarize cfg ct true o.summResp o.compResp now st).1.raw_messages := by
  unfold process
  dsimp only
  split
  · split
    · rfl
    · rfl
  · split
    · rfl
    · rfl

/-- `process` never changes `total_turns`. -/
theorem process_fst_turns (cfg : Config) (ct : String → Nat) (o : OracleTurn)
    (now : Nat) (q : String) (st : SessionState) :
    (process cfg ct o now q st).1.total_turns = st.total_turns := by
  have hc := check_and_summarize_turns cfg ct true o.summResp o.compResp now st
  unfold process
  dsimp only
  split
  · split
    · exact hc
    · exact hc
  · split
    · exact hc
    · exact hc

/-- Shape of a returned `PipelineResult`: `was_compressed` is never set,
`was_summarized` is exactly the compaction check's boolean, and the state's
counter moves as the result's kind dictates. -/
theorem process_some_spec (cfg : Config) (ct : String → Nat) (o : OracleTurn)
    (now : Nat) (q : String) (st : SessionState) (r : PipelineResult) :
    (process cfg ct o now q st).2 = some r →
    r.was_compressed = false ∧
    r.was_summarized =
      (check_and_summarize cfg ct true o.summResp o.compResp now st).2 ∧
    (r.needs_clarification = true →
      (process cfg ct o now q st).1.clarification_count =
        st.clarification_count + 1) ∧
    (r.needs_clarification = false →
      (process cfg ct o now q st).1.clarification_count = 0) := by
  have hc := check_and_summarize_count cfg ct true o.summResp o.compResp now st
  unfold process
  dsimp only
  split
  · split
    · intro hr
      injection hr with hr
      subst hr
      refine ⟨rfl, rfl, ?_, ?_⟩
      · intro hfalse
        exact absurd hfalse (by simp)
      · intro _
        rfl
    · intro hr
      injection hr with hr
      subst hr
      refine ⟨rfl, rfl, ?_, ?_⟩
      · intro _
        simp only [increment_clarification]
        rw [hc]
      · intro htrue
        exact absurd htrue (by simp)
  · split
    · intro hr
      injection hr with hr
      subst hr
      refine ⟨rfl, rfl, ?_, ?_⟩
      · intro hfalse
        exact absurd hfalse (by simp)
      · intro _
        rfl
    · intro hr
      exact absurd hr (by simp)

/-! ## Turn sequences -/

/-- One incoming turn's inputs: the oracle outcomes, wall-clock instant, and
the utterance. -/
structure TurnInput where
  oracle : OracleTurn
  now : Nat
  query : String

/-- The session states after each successive processed turn. -/
def processTrace (cfg : Config) (ct : String → Nat) (st : SessionState) :
    List TurnInput → List SessionState
  | [] => []
  | t :: ts =>
      let st' := (process cfg ct t.oracle t.now t.query st).1
      st' :: processTrace cfg ct st' ts

theorem processTrace_count_le (cfg : Config) (ct : String → Nat) :
    ∀ (turns : List TurnInput) (st : SessionState),
      ∀ s ∈ processTrace cfg ct st turns,
        s.clarification_count ≤ cfg.MAX_CLARIFICATION_ROUNDS := by
  intro turns
  induction turns with
  | nil =>
      intro st s hs
      simp [processTrace] at hs
  | cons t ts ih =>
      intro st s hs
      simp only [processTrace, List.mem_cons] at hs
      rcases hs with hs | hs
      · subst hs
        rcases process_count_cases cfg ct t.oracle t.now t.query st with h | ⟨h, hlt⟩
        · omega
        · omega
      · exact ih _ s hs

/-! ## Branch lemmas for the compaction check -/

/-- When the raw-token estimate exceeds the threshold a summarization fires. -/
theorem check_summarize_branch (cfg : Config) (ct : String → Nat)
    (sr cr : Option SummaryDict) (now : Nat) (st : SessionState)
    (h : ct (rawText st) > cfg.TOKEN_THRESHOLD_RAW) :
    check_and_summarize cfg ct true sr cr now st =
      (_perform_summarization cfg sr now st, true) := by
  unfold check_and_summarize
  split
  · next hfalse => exact absurd hfalse (by simp)
  · dsimp only
    rw [if_pos h]

/-- When the raw trigger is off but the summary-token estimate exceeds its
threshold, a compression fires. -/
theorem check_compress_branch (cfg : Config) (ct : String → Nat)
    (sr cr : Option SummaryDict) (now : Nat) (st : SessionState)
    (old : SessionSummary) (hs : st.summary = some old)
    (hraw : ¬ ct (rawText st) > cfg.TOKEN_THRESHOLD_RAW)
    (hcomp : ct (summaryDumpJson old) > cfg.SUMMARY_TOKEN_THRESHOLD) :
    check_and_summarize cfg ct true sr cr now st =
      (_perform_compression cr now st, true) := by
  unfold check_and_summarize
  split
  · next hfalse => exact absurd hfalse (by simp)
  · dsimp only
    rw [hs]
    dsimp only
    rw [if_neg hraw, if_pos (by simp [hcomp])]

/-- Summarizing with unparsable oracle output installs the default (empty)
summary. -/
theorem perform_summarization_none_summary (cfg : Config) (now : Nat)
    (st : SessionState) :
    (_perform_summarization cfg none now st).summary =
      some ({} : SessionSummary) := rfl

/-- Compressing with unparsable oracle output keeps the summary unchanged. -/
theorem perform_compression_none_summary (now : Nat) (st : SessionState) :
    (_perform_compression none now st).summary = st.summary := by
  unfold _perform_compression
  cases h : st.summary with
  | none => exact h
  | some old => simp [compress_summary, h]

/-! ## Claims -/

/-- Concrete input for C1's compression scenario: a session with a small
summary over a tiny summary-token threshold and an under-threshold log. -/
def c1CompressConfig : Config := { SUMMARY_TOKEN_THRESHOLD := 1 }

/-- Session whose summary triggers compression. -/
def c1CompressState : SessionState :=
  { session_id := "s", summary := some { topics := ["A"] } }

/-- Concrete input for C1's summarization scenario: the raw log exceeds a
tiny raw-token threshold. -/
def c1SummarizeConfig : Config := { TOKEN_THRESHOLD_RAW := 1 }

/-- Session whose raw log triggers summarization. -/
def c1SummarizeState : SessionState :=
  { session_id := "s"
    raw_messages := [{ role := .user, content := "hello", timestamp := none },
                     { role := .assistant, content := "there", timestamp := none }]
    summary := some { topics := ["A"] } }

set_option maxRecDepth 8000 in
/-- **C1, counterexample.** With an oracle bound and unparsable oracle output
(`none`), a compression-firing check keeps the summary but returns `true`
(the claim demands `false`), and a summarization-firing check returns `true`
and replaces the summary by the default empty one (the claim demands the
previous summary be kept). Token estimator instantiated as `String.length`. -/
theorem c1_counterexample :
    ((check_and_summarize c1CompressConfig String.length true none none 0
        c1CompressState).2 = true ∧
      (check_and_summarize c1CompressConfig String.length true none none 0
        c1CompressState).1.summary = c1CompressState.summary) ∧
    ((check_and_summarize c1SummarizeConfig String.length true none none 0
        c1SummarizeState).2 = true ∧
      (check_and_summarize c1SummarizeConfig String.length true none none 0
        c1SummarizeState).1.summary = some ({} : SessionSummary) ∧
      c1SummarizeState.summary = some { topics := ["A"] }) := by
  refine ⟨⟨?_, ?_⟩, ?_, ?_, ?_⟩ <;> decide

set_option maxRecDepth 8000 in
/-- Hypotheses of the two C1 scenarios hold at the concrete inputs. -/
theorem c1ScenarioFacts :
    String.length (rawText c1SummarizeState) >
      c1SummarizeConfig.TOKEN_THRESHOLD_RAW ∧
    ¬ String.length (rawText c1CompressState) >
      c1CompressConfig.TOKEN_THRESHOLD_RAW ∧
    c1CompressState.summary = some { topics := ["A"] } ∧
    String.length (summaryDumpJson { topics := ["A"] }) >
      c1CompressConfig.SUMMARY_TOKEN_THRESHOLD := by
  refine ⟨?_, ?_, ?_, ?_⟩ <;> decide

/-- **C1 (amended).** For every session state with an oracle bound, when the
oracle's output is unparsable during the compaction check: if the
summarization trigger fires, the check returns `true` and the summary is
replaced by the default empty summary; if only the compression trigger
fires, the check returns `true` and the previous summary is kept unchanged.
(The original claim demanded the previous summary be kept and `false`
returned in both cases; the counterexample shows the check reports the fired
action with `true`, and that a failed summarization installs the empty
fallback summary.) -/
theorem c1_parse_failure_semantics (cfg : Config) (ct : String → Nat)
    (cr sr : Option SummaryDict) (now : Nat) (st : SessionState)
    (old : SessionSummary) :
    (ct (rawText st) > cfg.TOKEN_THRESHOLD_RAW →
      (check_and_summarize cfg ct true none cr now st).2 = true ∧
      (check_and_summarize cfg ct true none cr now st).1.summary =
        some ({} : SessionSummary)) ∧
    (¬ ct (rawText st) > cfg.TOKEN_THRESHOLD_RAW → st.summary = some old →
      ct (summaryDumpJson old) > cfg.SUMMARY_TOKEN_THRESHOLD →
      (check_and_summarize cfg ct true sr none now st).2 = true ∧
      (check_and_summarize cfg ct true sr none now st).1.summary = some old) := by
  constructor
  · intro h
    rw [check_summarize_branch cfg ct none cr now st h]
    exact ⟨rfl, rfl⟩
  · intro hraw hs hcomp
    rw [check_compress_branch cfg ct sr none now st old hs hraw hcomp]
    refine ⟨rfl, ?_⟩
    show (_perform_compression none now st).summary = some old
    rw [perform_compression_none_summary, hs]

/-- **C1, witness.** The amended theorem applied at the two concrete
scenarios of the counterexample. -/
theorem c1_parse_failure_semantics_witness :
    ((check_and_summarize c1SummarizeConfig String.length true none none 0
        c1SummarizeState).2 = true ∧
      (check_and_summarize c1SummarizeConfig String.length true none none 0
        c1SummarizeState).1.summary = some ({} : SessionSummary)) ∧
    ((check_and_summarize c1CompressConfig String.length true none none 0
        c1CompressState).2 = true ∧
      (check_and_summarize c1CompressConfig String.length true none none 0
        c1CompressState).1.summary = some { topics := ["A"] }) :=
  ⟨(c1_parse_failure_semantics c1SummarizeConfig String.length none none 0
      c1SummarizeState { topics := ["A"] }).1 c1ScenarioFacts.1,
   (c1_parse_failure_semantics c1CompressConfig String.length none none 0
      c1CompressState { topics := ["A"] }).2 c1ScenarioFacts.2.1
     c1ScenarioFacts.2.2.1 c1ScenarioFacts.2.2.2⟩

/-- **C2.** In a validated configuration (`KEEP_RECENT_N > 0`), whenever the
compaction check triggers summarization, afterwards the raw message log is a
suffix of the previous log with at most `KEEP_RECENT_N` entries, and
`summarized_up_to_turn` equals `total_turns`. -/
theorem c2_summarization_truncates (cfg : Config) (ct : String → Nat)
    (sr cr : Option SummaryDict) (now : Nat) (st : SessionState)
    (hN : 0 < cfg.KEEP_RECENT_N)
    (htrig : ct (rawText st) > cfg.TOKEN_THRESHOLD_RAW) :
    (check_and_summarize cfg ct true sr cr now st).2 = true ∧
    (check_and_summarize cfg ct true sr cr now st).1.raw_messages.length ≤
      cfg.KEEP_RECENT_N ∧
    (check_and_summarize cfg ct true sr cr now st).1.raw_messages <:+
      st.raw_messages ∧
    (check_and_summarize cfg ct true sr cr now st).1.summarized_up_to_turn =
      some ((check_and_summarize cfg ct true sr cr now st).1.total_turns) := by
  rw [check_summarize_branch cfg ct sr cr now st htrig]
  refine ⟨rfl, ?_, ?_, rfl⟩
  · exact pyTakeLast_length_le st.raw_messages hN
  · exact pyTakeLast_suffix st.raw_messages cfg.KEEP_RECENT_N

/-- Concrete summarizing session for C2's witness. -/
def c2WitnessConfig : Config := { TOKEN_THRESHOLD_RAW := 3, KEEP_RECENT_N := 2 }

/-- Session whose raw log exceeds the C2 witness threshold. -/
def c2WitnessState : SessionState :=
  { session_id := "w2"
    raw_messages := [{ role := .user, content := "alpha", timestamp := none },
                     { role := .assistant, content := "beta", timestamp := none },
                     { role := .user, content := "gamma", timestamp := none },
                     { role := .assistant, content := "delta", timestamp := none }]
    total_turns := 2 }

/-- **C2, witness.** The theorem applied at a concrete summarizing session. -/
theorem c2_summarization_truncates_witness :
    (check_and_summarize c2WitnessConfig String.length true none none 0
      c2WitnessState).2 = true ∧
    (check_and_summarize c2WitnessConfig String.length true none none 0
      c2WitnessState).1.raw_messages.length ≤ c2WitnessConfig.KEEP_RECENT_N ∧
    (check_and_summarize c2WitnessConfig String.length true none none 0
      c2WitnessState).1.raw_messages <:+ c2WitnessState.raw_messages ∧
    (check_and_summarize c2WitnessConfig String.length true none none 0
      c2WitnessState).1.summarized_up_to_turn =
      some ((check_and_summarize c2WitnessConfig String.length true none none 0
        c2WitnessState).1.total_turns) :=
  c2_summarization_truncates c2WitnessConfig String.length none none 0
    c2WitnessState (by decide) (by decide)

/-- **C4.** Over every sequence of processed turns the clarification counter
stays within `[0, MAX_CLARIFICATION_ROUNDS]` (the lower bound is inherent to
the `Nat` counter); it is incremented on each turn whose result is a
clarification request, and reset to 0 on every turn whose result is a final
answer, including a forced answer after the maximum rounds is reached. -/
theorem c4_clarification_counter (cfg : Config) (ct : String → Nat)
    (st : SessionState) :
    (∀ (turns : List TurnInput), ∀ s ∈ processTrace cfg ct st turns,
        s.clarification_count ≤ cfg.MAX_CLARIFICATION_ROUNDS) ∧
    (∀ (o : OracleTurn) (now : Nat) (q : String) (r : PipelineResult),
        (process cfg ct o now q st).2 = some r →
        (r.needs_clarification = true →
          (process cfg ct o now q st).1.clarification_count =
            st.clarification_count + 1) ∧
        (r.needs_clarification = false →
          (process cfg ct o now q st).1.clarification_count = 0)) := by
  constructor
  · intro turns s hs
    exact processTrace_count_le cfg ct turns st s hs
  · intro o now q r hr
    exact (process_some_spec cfg ct o now q st r hr).2.2

/-- Oracle outcomes of a clarifying turn, for C4's witness. -/
def c4WitnessOracle : OracleTurn :=
  { clarifyResp := some { needs_clarification := some true,
                          clarifying_questions := some ["Which database?"] } }

/-- Fresh session for C4's witness. -/
def c4WitnessState : SessionState := { session_id := "w4" }

/-- **C4, witness.** The bound applied to the state after one concrete
clarifying turn. -/
theorem c4_clarification_counter_witness :
    (process ({} : Config) String.length c4WitnessOracle 0 "Set up the database"
        c4WitnessState).1.clarification_count ≤
      ({} : Config).MAX_CLARIFICATION_ROUNDS :=
  (c4_clarification_counter {} String.length c4WitnessState).1
    [{ oracle := c4WitnessOracle, now := 0, query := "Set up the database" }]
    _ (List.Mem.head _)

/-- **C5.** `process_and_record` calls `add_turn` with the original utterance
and the result's response exactly when the result is not a clarification
request; on a clarifying turn nothing is appended to the log (it is a suffix
of the previous log — the compaction check may truncate but never appends)
and `total_turns` is unchanged. -/
theorem c5_record_only_answers (cfg : Config) (ct : String → Nat)
    (o : OracleTurn) (now : Nat) (q : String) (st st' : SessionState)
    (r : PipelineResult)
    (h : process_and_record cfg ct o now q st = (st', some r)) :
    (r.needs_clarification = true →
      st'.raw_messages <:+ st.raw_messages ∧ st'.total_turns = st.total_turns) ∧
    (r.needs_clarification = false →
      st' = add_turn (process cfg ct o now q st).1 q r.response now ∧
      st'.raw_messages = (process cfg ct o now q st).1.raw_messages ++
        [{ role := .user, content := q, timestamp := some now },
         { role := .assistant, content := r.response, timestamp := some now }] ∧
      st'.total_turns = st.total_turns + 1) := by
  have hsuf : (process cfg ct o now q st).1.raw_messages <:+ st.raw_messages := by
    rw [process_fst_raw]
    exact check_and_summarize_raw_suffix cfg ct true o.summResp o.compResp now st
  have hturns := process_fst_turns cfg ct o now q st
  unfold process_and_record at h
  rcases hp : process cfg ct o now q st with ⟨st1, ores⟩
  rw [hp] at h hsuf hturns
  cases ores with
  | none => simp at h
  | some r0 =>
      cases hb : r0.needs_clarification with
      | true =>
          simp only [hb, Bool.not_true, Bool.false_eq_true, if_false] at h
          rw [Prod.mk.injEq, Option.some.injEq] at h
          obtain ⟨h1, h2⟩ := h
          subst h1
          subst h2
          constructor
          · intro _
            exact ⟨hsuf, hturns⟩
          · intro hfalse
            rw [hb] at hfalse
            exact absurd hfalse (by simp)
      | false =>
          simp only [hb, Bool.not_false, if_true] at h
          rw [Prod.mk.injEq, Option.some.injEq] at h
          obtain ⟨h1, h2⟩ := h
          subst h2
          constructor
          · intro htrue
            rw [hb] at htrue
            exact absurd htrue (by simp)
          · intro _
            refine ⟨h1.symm, ?_, ?_⟩
            · rw [← h1]
              rfl
            · rw [← h1]
              show st1.total_turns + 1 = st.total_turns + 1
              rw [hturns]

/-- Oracle outcomes of an answered turn, for C5's witness. -/
def c5WitnessOracle : OracleTurn := { answerResp := .ok "4" }

/-- Fresh session for C5's witness. -/
def c5WitnessState : SessionState := { session_id := "w5" }

/-- **C5, witness.** A concrete answered turn gets recorded: `total_turns`
increments. -/
theorem c5_record_only_answers_witness :
    (process_and_record {} String.length c5WitnessOracle 3 "What is 2+2?"
        c5WitnessState).1.total_turns = c5WitnessState.total_turns + 1 := by
  cases hq : (process_and_record {} String.length c5WitnessOracle 3 "What is 2+2?"
      c5WitnessState).2 with
  | none => exact absurd hq (by decide)
  | some r =>
      have hpair : process_and_record {} String.length c5WitnessOracle 3
          "What is 2+2?" c5WitnessState =
          ((process_and_record {} String.length c5WitnessOracle 3 "What is 2+2?"
            c5WitnessState).1, some r) := by
        rw [← hq]
      have h5 := c5_record_only_answers {} String.length c5WitnessOracle 3
        "What is 2+2?" c5WitnessState _ r hpair
      have hmap : (process_and_record {} String.length c5WitnessOracle 3
          "What is 2+2?" c5WitnessState).2.map PipelineResult.needs_clarification =
          some false := by decide
      rw [hq] at hmap
      have hrn : r.needs_clarification = false := by simpa using hmap
      exact (h5.2 hrn).2.2

/-- **C10.** Every `PipelineResult` returned by `process` has
`was_compressed = false` (no return site ever sets it), and `was_summarized`
equals the boolean the compaction check returned, whichever action fired. -/
theorem c10_was_flags (cfg : Config) (ct : String → Nat) (o : OracleTurn)
    (now : Nat) (q : String) (st : SessionState) (r : PipelineResult)
    (h : (process cfg ct o now q st).2 = some r) :
    r.was_compressed = false ∧
    r.was_summarized =
      (check_and_summarize cfg ct true o.summResp o.compResp now st).2 :=
  ⟨(process_some_spec cfg ct o now q st r h).1,
   (process_some_spec cfg ct o now q st r h).2.1⟩

/-- Config making the C10 witness's compaction check fire a compression. -/
def c10WitnessConfig : Config := { SUMMARY_TOKEN_THRESHOLD := 1 }

/-- Session whose summary is over the C10 witness threshold. -/
def c10WitnessState : SessionState :=
  { session_id := "w10", summary := some { topics := ["A"] } }

/-- Oracle outcomes: unparsable compressor output, an answered turn. -/
def c10WitnessOracle : OracleTurn := { answerResp := .ok "fine" }

set_option maxRecDepth 8000 in
/-- **C10, witness.** A concrete turn whose compaction check performed a
compression: the returned result still has `was_compressed = false` and
`was_summarized = true`. -/
theorem c10_was_flags_witness :
    ((process c10WitnessConfig String.length c10WitnessOracle 0 "hi"
        c10WitnessState).2.map PipelineResult.was_compressed = some false) ∧
    ((process c10WitnessConfig String.length c10WitnessOracle 0 "hi"
        c10WitnessState).2.map PipelineResult.was_summarized = some true) := by
  cases hr : (process c10WitnessConfig String.length c10WitnessOracle 0 "hi"
      c10WitnessState).2 with
  | none => exact absurd hr (by decide)
  | some r =>
      have h := c10_was_flags c10WitnessConfig String.length c10WitnessOracle 0
        "hi" c10WitnessState r hr
      have hchk : (check_and_summarize c10WitnessConfig String.length true
          c10WitnessOracle.summResp c10WitnessOracle.compResp 0
          c10WitnessState).2 = true := by decide
      rw [hchk] at h
      simp [h.1, h.2]

/-- A rewrite oracle response with a rewrite despite `is_ambiguous = false`. -/
def c6CounterOracle : RewriteDict :=
  { is_ambiguous := some false, rewritten_query := some "X" }

/-- A rewrite oracle response returning the empty string as rewrite. -/
def c6EmptyOracle : RewriteDict := { rewritten_query := some "" }

/-- **C6, counterexample.** The code never gates `rewritten_query` on
`is_ambiguous`: an oracle response with `is_ambiguous = false` and a rewrite
keeps the rewrite; and for an empty original query an oracle-returned empty
rewrite equals the original verbatim yet is not treated as null (Python's
truthiness check skips the comparison for `""`). -/
theorem c6_counterexample :
    ((rewrite_query {} "Y" [] (some c6CounterOracle)).is_ambiguous = false ∧
      (rewrite_query {} "Y" [] (some c6CounterOracle)).rewritten_query = some "X") ∧
    ((rewrite_query {} "" [] (some c6EmptyOracle)).rewritten_query = some "" ∧
      (rewrite_query {} "" [] (some c6EmptyOracle)).original_query = "") := by
  refine ⟨⟨?_, ?_⟩, ?_, ?_⟩ <;> decide

/-- **C6 (amended).** `rewritten_query` is exactly the oracle-returned
rewrite, nulled only when it is non-empty (truthy) and equals the original
after whitespace stripping; hence a *non-empty* `rewritten_query` never
equals the original query, even after stripping — but it can be non-null
while `is_ambiguous` is false, and an empty-string rewrite of an empty query
survives verbatim. -/
theorem c6_rewrite_never_verbatim (cfg : Config) (q : String)
    (msgs : List Message) (resp : Option RewriteDict) (s : String)
    (h : (rewrite_query cfg q msgs resp).rewritten_query = some s)
    (hne : s ≠ "") :
    pyStrip s ≠ pyStrip q ∧ s ≠ q := by
  cases resp with
  | none => simp [rewrite_query] at h
  | some data =>
      unfold rewrite_query at h
      dsimp only at h
      cases hrw : (_dict_to_rewrite_result cfg data q msgs).rewritten_query with
      | none =>
          rw [hrw] at h
          dsimp only at h
          rw [hrw] at h
          exact absurd h (by simp)
      | some rq =>
          rw [hrw] at h
          dsimp only at h
          by_cases hcond : rq ≠ "" ∧ pyStrip rq = pyStrip q
          · rw [if_pos hcond] at h
            simp at h
          · rw [if_neg hcond] at h
            rw [hrw] at h
            obtain rfl := Option.some.inj h
            refine ⟨?_, ?_⟩
            · intro hps
              exact hcond ⟨hne, hps⟩
            · intro heq
              exact hcond ⟨hne, by rw [heq]⟩

/-- **C6, witness.** The amended theorem applied at the counterexample's
first oracle response. -/
theorem c6_rewrite_never_verbatim_witness :
    pyStrip "X" ≠ pyStrip "Y" ∧ "X" ≠ "Y" :=
  c6_rewrite_never_verbatim {} "Y" [] (some c6CounterOracle) "X" (by decide)
    (by decide)

/-- **C7.** On an unparsable oracle response the rewrite step falls back to
`is_ambiguous = false`, no rewrite, empty referenced messages and all-false
context usage, and the decision step falls back to no clarification with an
empty question list; and any parsed question list longer than 3 is truncated
to its first 3 entries. -/
theorem c7_parse_fallbacks (cfg : Config) (q : String) (msgs : List Message) :
    rewrite_query cfg q msgs none =
      { original_query := q
        is_ambiguous := false
        rewritten_query := none
        referenced_messages := []
        context_usage :=
          { use_user_profile := false, use_current_goal := false,
            use_topics := false, use_key_facts := false,
            use_decisions := false, use_open_questions := false,
            use_todos := false } } ∧
    check_clarification_needed none =
      { needs_clarification := false, clarifying_questions := [] } ∧
    (∀ (d : ClarifyDict) (qs : List String),
      d.clarifying_questions = some qs → qs.length > 3 →
      (check_clarification_needed (some d)).clarifying_questions = qs.take 3) := by
  refine ⟨rfl, rfl, ?_⟩
  intro d qs hqs hlen
  simp [check_clarification_needed, hqs, hlen]

/-- A decision oracle response with four questions, for C7's witness. -/
def c7WitnessDict : ClarifyDict :=
  { needs_clarification := some true,
    clarifying_questions := some ["a", "b", "c", "d"] }

/-- **C7, witness.** The truncation applied at a concrete four-question
response. -/
theorem c7_parse_fallbacks_witness :
    (check_clarification_needed (some c7WitnessDict)).clarifying_questions =
      ["a", "b", "c"] := by
  have h := (c7_parse_fallbacks {} "x" []).2.2 c7WitnessDict ["a", "b", "c", "d"]
    rfl (by decide)
  simpa using h

/-- A non-whitespace element survives `dropWhile isWhitespace`. -/
theorem mem_dropWhile_of_not_whitespace {l : List Char} {c : Char}
    (hc : c ∈ l) (hp : ¬ c.isWhitespace = true) :
    c ∈ l.dropWhile Char.isWhitespace := by
  rw [← List.takeWhile_append_dropWhile (p := Char.isWhitespace) (l := l)] at hc
  rcases List.mem_append.mp hc with h | h
  · exact absurd (List.mem_takeWhile_imp h) hp
  · exact h

/-- A string containing a non-whitespace character does not strip to "". -/
theorem pyStrip_ne_empty {s : String} {c : Char} (hc : c ∈ s.data)
    (hw : ¬ c.isWhitespace = true) : pyStrip s ≠ "" := by
  unfold pyStrip
  intro h
  have hdata :
      ((s.data.dropWhile Char.isWhitespace).reverse.dropWhile
        Char.isWhitespace).reverse = [] := by
    have h2 := congrArg String.data h
    simpa using h2
  rw [List.reverse_eq_nil_iff, List.dropWhile_eq_nil_iff] at hdata
  have h1 : c ∈ s.data.dropWhile Char.isWhitespace :=
    mem_dropWhile_of_not_whitespace hc hw
  have h2 : c ∈ (s.data.dropWhile Char.isWhitespace).reverse :=
    List.mem_reverse.mpr h1
  exact hw (hdata c h2)

/-- A numbered clarification list is never the empty string (its stripped
text still starts with the fixed header). -/
theorem format_clarification_two_ne_empty (q1 q2 : String) (qs : List String) :
    _format_clarification_questions (q1 :: q2 :: qs) ≠ "" := by
  unfold _format_clarification_questions
  apply pyStrip_ne_empty (c := 'I')
  · rw [String.data_append]
    apply List.mem_append_left
    decide
  · decide

/-- Pipeline oracle outcomes carrying a single empty clarifying question. -/
def c9Oracle : OracleTurn :=
  { clarifyResp := some { needs_clarification := some true,
                          clarifying_questions := some [""] } }

/-- Fresh session for C9's counterexample. -/
def c9State : SessionState := { session_id := "w9" }

set_option maxRecDepth 8000 in
/-- **C9, counterexample.** A clarifying turn whose single carried question
is the empty string produces the empty string as the pipeline's response —
so a clarifying response *can* be empty ("that question verbatim" wins over
"never the empty string"). -/
theorem c9_counterexample :
    ((process {} String.length c9Oracle 0 "q" c9State).2.map
        PipelineResult.needs_clarification = some true) ∧
    ((process {} String.length c9Oracle 0 "q" c9State).2.map
        PipelineResult.response = some "") := by
  refine ⟨?_, ?_⟩ <;> decide

/-- **C9 (amended).** An empty question list formats to the fixed non-empty
fallback prompt, a single question is returned verbatim (so it is empty
exactly when that question is), two or more questions format to a non-empty
numbered list; hence a clarifying response is non-empty whenever every
carried question is non-empty. -/
theorem c9_clarification_formatting :
    _format_clarification_questions [] =
      "Could you please provide more details about your request?" ∧
    (∀ q, _format_clarification_questions [q] = q) ∧
    (∀ q1 q2 qs, _format_clarification_questions (q1 :: q2 :: qs) ≠ "") ∧
    (∀ qs, (∀ q ∈ qs, q ≠ "") → _format_clarification_questions qs ≠ "") := by
  refine ⟨rfl, fun q => rfl, ?_, ?_⟩
  · intro q1 q2 qs
    exact format_clarification_two_ne_empty q1 q2 qs
  · intro qs hqs
    match qs with
    | [] =>
        intro h
        simp [_format_clarification_questions] at h
    | [q] => exact hqs q (by simp)
    | q1 :: q2 :: qs' => exact format_clarification_two_ne_empty q1 q2 qs'

/-- **C9, witness.** The amended theorem applied at a concrete non-empty
question. -/
theorem c9_clarification_formatting_witness :
    _format_clarification_questions ["Which database?"] ≠ "" :=
  c9_clarification_formatting.2.2.2 ["Which database?"] (by decide)

/-- The assembler's sequential field/part accumulation equals the per-field
concatenations of the spec-style definitions (with the `user_profile`
recording quirk). -/
theorem memoryFieldsAndParts_eq (cu : ContextUsage)
    (summ : Option SessionSummary) :
    memoryFieldsAndParts cu summ =
      (amendedMemoryFieldsUsed cu summ, specMemoryBlocks cu summ) := by
  cases summ with
  | none => rfl
  | some s =>
      simp only [memoryFieldsAndParts, amendedMemoryFieldsUsed, specMemoryBlocks]
      by_cases h1 : cu.use_user_profile = true <;>
      by_cases h1e : (profileParts s.user_profile).isEmpty = true <;>
      by_cases h2 : (cu.use_current_goal && optStrTruthy s.current_goal) = true <;>
      by_cases h3 : (cu.use_topics && !s.topics.isEmpty) = true <;>
      by_cases h4 : (cu.use_key_facts && !s.key_facts.isEmpty) = true <;>
      by_cases h5 : (cu.use_decisions && !s.decisions.isEmpty) = true <;>
      by_cases h6 : (cu.use_open_questions && !s.open_questions.isEmpty) = true <;>
      by_cases h7 : (cu.use_todos && !s.todos.isEmpty) = true <;>
      simp [h1, h1e, h2, h3, h4, h5, h6, h7]

/-- Clamping never changes emptiness (`lst[-n:]` of a non-empty list is
non-empty, also for `n = 0` where it is the whole list). -/
theorem pyTakeLast_isEmpty (xs : List α) (n : Nat) :
    (pyTakeLast xs n).isEmpty = xs.isEmpty := by
  unfold pyTakeLast
  split
  · rfl
  · next hn =>
      rcases xs with _ | ⟨a, xs⟩
      · simp
      · have hpos : 0 < ((a :: xs).drop ((a :: xs).length - n)).length := by
          rw [List.length_drop]
          simp only [List.length_cons]
          omega
        have hne := List.length_pos.mp hpos
        obtain ⟨b, l, hb⟩ := List.exists_cons_of_ne_nil hne
        rw [hb]
        rfl

/-- Joining up to two optional blocks with a blank line. -/
theorem final_join (b1 b2 : Bool) (x y : String) :
    (if !((if b1 then [x] else []) ++ (if b2 then [y] else [])).isEmpty then
      String.intercalate "\n\n" ((if b1 then [x] else []) ++ (if b2 then [y] else []))
     else "") =
    (if b1 then (if b2 then x ++ "\n\n" ++ y else x)
     else (if b2 then y else "")) := by
  cases b1 <;> cases b2 <;> rfl

/-- `String.intercalate` on a singleton. -/
theorem intercalate_single (s a : String) : String.intercalate s [a] = a := rfl

/-- `String.intercalate` on a pair. -/
theorem intercalate_pair (s a b : String) :
    String.intercalate s [a, b] = a ++ s ++ b := rfl

/-- **C3 (amended).** The assembler appends a labeled block for exactly those
summary fields whose flag is true and whose value is non-empty, in the fixed
order profile, goal, topics, facts, decisions, open questions, todos, joined
by blank lines; `memory_fields_used` lists the fields in that same order
*except* that `user_profile` is recorded whenever its flag is true, even when
the profile is empty and no block is emitted; `final_augmented_context` is
the recent-conversation block followed by a blank line and the memory block,
either half omitted when empty and the empty string when both are empty. -/
theorem c3_assembler (cfg : Config) (recent_messages : List Message)
    (cu : ContextUsage) (summ : Option SessionSummary) :
    (augment_context cfg recent_messages cu summ).memory_fields_used =
      amendedMemoryFieldsUsed cu summ ∧
    (augment_context cfg recent_messages cu summ).memory_context =
      String.intercalate "\n\n" (specMemoryBlocks cu summ) ∧
    (augment_context cfg recent_messages cu summ).recent_messages.isEmpty =
      recent_messages.isEmpty ∧
    (augment_context cfg recent_messages cu summ).final_augmented_context =
      (if (augment_context cfg recent_messages cu summ).recent_messages.isEmpty then
        (if (augment_context cfg recent_messages cu summ).memory_context = "" then ""
         else "MEMORY CONTEXT:\n" ++
           (augment_context cfg recent_messages cu summ).memory_context)
       else
        (if (augment_context cfg recent_messages cu summ).memory_context = "" then
          recentBlock (augment_context cfg recent_messages cu summ).recent_messages
         else
          recentBlock (augment_context cfg recent_messages cu summ).recent_messages ++
            "\n\n" ++ ("MEMORY CONTEXT:\n" ++
              (augment_context cfg recent_messages cu summ).memory_context))) := by
  have hfp := memoryFieldsAndParts_eq cu summ
  unfold augment_context
  rw [hfp]
  dsimp only
  refine ⟨rfl, ?_, ?_, ?_⟩
  · by_cases hb : (specMemoryBlocks cu summ).isEmpty = true
    · rw [List.isEmpty_iff] at hb
      rw [hb]
      rfl
    · simp [hb]
  · by_cases hr : recent_messages.isEmpty = true
    · simp [hr]
    · simp only [hr, Bool.false_eq_true, if_false]
      rw [pyTakeLast_isEmpty]
      simpa using hr
  · rw [final_join]
    by_cases hr : recent_messages.isEmpty = true <;>
    by_cases hbl : specMemoryBlocks cu summ = [] <;>
    by_cases hic : String.intercalate "\n\n" (specMemoryBlocks cu summ) = "" <;>
    simp_all [pyTakeLast_isEmpty]

/-- **C3, counterexample.** With `use_user_profile = true` and a summary
whose profile is entirely empty, the assembler emits no block
(`memory_context = ""`) yet records `"user_profile"` in
`memory_fields_used` — while the claim ("for exactly those summary fields
whose flag is true and whose value is non-empty") requires recording
nothing. -/
theorem c3_counterexample :
    (augment_context {} [] { use_user_profile := true }
        (some {})).memory_fields_used = ["user_profile"] ∧
    specMemoryFieldsUsed { use_user_profile := true } (some {}) = [] ∧
    (augment_context {} [] { use_user_profile := true }
        (some {})).memory_context = "" := by
  refine ⟨?_, ?_, ?_⟩ <;> decide

/-! ## C8: round-trip of the persisted session record -/

theorem strListFromJson_go_map (xs : List String) :
    strListFromJson.go (xs.map JVal.jstr) = some xs := by
  induction xs with
  | nil => rfl
  | cons x xs ih => simp [strListFromJson.go, ih]

theorem strList_roundtrip (xs : List String) :
    strListFromJson (strListToJson xs) = some xs := by
  unfold strListToJson strListFromJson
  exact strListFromJson_go_map xs

theorem message_roundtrip (m : Message) :
    messageFromJson (messageToJson m) = some m := by
  rcases m with ⟨role, content, ts⟩
  cases role <;> cases ts <;> rfl

theorem messages_roundtrip (l : List Message) :
    messagesFromJson (l.map messageToJson) = some l := by
  induction l with
  | nil => rfl
  | cons m l ih => simp [messagesFromJson, message_roundtrip, ih]

theorem profile_roundtrip (p : UserProfile) :
    profileFromJson (profileToJson p) = some p := by
  rcases p with ⟨prefs, constraints, bg⟩
  cases bg <;>
    simp [profileToJson, profileFromJson, optStrToJson, optStrFromJson,
      strList_roundtrip]

theorem summary_roundtrip (s : SessionSummary) :
    summaryFromJson (summaryToJson s) = some s := by
  rcases s with ⟨up, cg, tp, kf, dc, oq, td⟩
  cases cg <;>
    simp [summaryToJson, summaryFromJson, optStrToJson, optStrFromJson,
      strList_roundtrip, profile_roundtrip]

theorem optSummary_roundtrip (s : Option SessionSummary) :
    optSummaryFromJson (optSummaryToJson s) = some s := by
  cases s with
  | none => rfl
  | some s =>
      have h := summary_roundtrip s
      simp only [optSummaryToJson, summaryToJson] at h ⊢
      simp [optSummaryFromJson, h]

theorem optNat_roundtrip (n : Option Nat) :
    optNatFromJson (optNatToJson n) = some n := by
  cases n <;> rfl

/-- The field names of the serialized record, in order. -/
def jobjKeys : JVal → List String
  | .jobj fs => fs.map Prod.fst
  | _ => []

/-- **C8.** Serializing a `SessionState` and deserializing it yields an equal
state; the record lists the state's field names in declaration order, and the
message log is always serialized as a JSON array (`[]` when empty, never
`null`). -/
theorem c8_save_load_roundtrip (st : SessionState) :
    sessionStateFromJson (sessionStateToJson st) = some st ∧
    jobjKeys (sessionStateToJson st) =
      ["session_id", "raw_messages", "summary", "summarized_up_to_turn",
       "total_turns", "clarification_count", "created_at", "last_updated"] ∧
    sessionStateToJson st =
      .jobj [("session_id", .jstr st.session_id),
             ("raw_messages", .jarr (st.raw_messages.map messageToJson)),
             ("summary", optSummaryToJson st.summary),
             ("summarized_up_to_turn", optNatToJson st.summarized_up_to_turn),
             ("total_turns", .jnum st.total_turns),
             ("clarification_count", .jnum st.clarification_count),
             ("created_at", .jnum st.created_at),
             ("last_updated", .jnum st.last_updated)] := by
  refine ⟨?_, rfl, rfl⟩
  rcases st with ⟨sid, msgs, summ, sut, tt, cc, ca, lu⟩
  simp [sessionStateToJson, sessionStateFromJson, messages_roundtrip,
    optSummary_roundtrip, optNat_roundtrip]

end ChatTMT
